import Mathlib

/-!
Verification of the conversational HCP-interaction logger backend
(`backend/main.py`): the LangGraph turn engine (LLM node, tool node,
conditional edges), the tool registry, the response classification
performed by the `/api/log_interaction/chat` endpoint, the draft-formatting
tool, and the chat-confirmation parsing path.  Python strings are modelled
as Lean `String`, Python lists as Lean `List`, optional/`None`-able values
as `Option`, and endpoint failures (`HTTPException`) as `Except String`.
-/

namespace HCP

/-! ## String helpers mirroring the Python string primitives -/

/-- The ASCII whitespace characters recognised by Python's `str.strip`. -/
def pyIsSpace (c : Char) : Bool :=
  c = ' ' || c = '\t' || c = '\n' || c = '\r' || c = '\x0b' || c = '\x0c'

/-- `str.strip()` on the underlying character list: drop leading and
trailing whitespace. -/
def pyStripChars (l : List Char) : List Char :=
  ((l.dropWhile pyIsSpace).reverse.dropWhile pyIsSpace).reverse

/-- Python's `str.strip()`. -/
def pyStrip (s : String) : String :=
  String.mk (pyStripChars s.data)

/-- Python's `str.lower()` (ASCII case folding, which is all the code's
markers need). -/
def lowerStr (s : String) : String :=
  String.mk (s.data.map Char.toLower)

/-- Substring test on character lists: does `needle` occur contiguously in
`hay`?  Mirrors Python's `needle in hay`. -/
def listContains (hay needle : List Char) : Bool :=
  match hay with
  | [] => needle.isEmpty
  | c :: t => needle.isPrefixOf (c :: t) || listContains t needle

/-- Python's `needle in hay` on strings (case-sensitive). -/
def containsStr (hay needle : String) : Bool :=
  listContains hay.data needle.data

/-- Python's `needle in hay.lower()` for an already-lowercase `needle` —
the case-insensitive marker test used by the code. -/
def containsCI (hay needle : String) : Bool :=
  containsStr (lowerStr hay) needle

/-- Python's `", ".join` / `sep.join` specialised to the two separators the
code uses, parameterised by the separator string. -/
def joinSep (sep : String) : List String → String
  | [] => ""
  | [x] => x
  | x :: xs => x ++ sep ++ joinSep sep xs

/-- `", ".join(l)` as used by the draft-formatting tool. -/
def joinComma (l : List String) : String := joinSep ", " l

/-- The decimal digit character for `d` (callers only use `d < 10`):
code point 48 (`'0'`) plus the digit value. -/
def digitChar (d : Nat) : Char := Char.ofNat (48 + d)

/-- Reading a single ASCII decimal digit, as `strptime`'s numeric
directives do: `'0'`–`'9'` map to 0–9, everything else is rejected. -/
def charToDigit (c : Char) : Option Nat :=
  if '0' ≤ c ∧ c ≤ '9' then some (c.toNat - 48) else none

/-- Zero-padded `w`-digit decimal rendering of `n` (the behaviour of
`strftime`'s `%d`, `%m`, `%H`, `%M` with `w = 2`). -/
def padChars : Nat → Nat → List Char
  | 0, _ => []
  | w + 1, n => padChars w (n / 10) ++ [digitChar (n % 10)]

/-- Unpadded decimal rendering, peeling one trailing digit per unit of
fuel once `n` has more than one digit. -/
def natDigitsAux : Nat → Nat → List Char
  | 0, _ => []
  | fuel + 1, n =>
    if n < 10 then [digitChar n]
    else natDigitsAux fuel (n / 10) ++ [digitChar (n % 10)]

/-- `strftime("%Y")` as the platform renders it: the year written in
decimal with *no* zero padding (`date(5, 6, 1)` renders as `"5"`).  Five
digits of fuel cover every year `datetime.date` can hold (1–9999). -/
def natDigits (n : Nat) : List Char := natDigitsAux 5 n

/-- Accumulating decimal reader over a digit string. -/
def readDigitsAux : List Char → Nat → Option Nat
  | [], acc => some acc
  | c :: cs, acc =>
    match charToDigit c with
    | some d => readDigitsAux cs (acc * 10 + d)
    | none => none

/-- Read a non-empty all-digit character list as a decimal number
(callers enforce the digit-count bounds of the `strptime` directives). -/
def readDigits (cs : List Char) : Option Nat := readDigitsAux cs 0

/-- Split a character list at every occurrence of `sep`, keeping empty
components, as the field separators `-` and `:` of the date/time formats
partition their input. -/
def splitSep (sep : Char) : List Char → List (List Char)
  | [] => [[]]
  | c :: cs =>
    if c = sep then [] :: splitSep sep cs
    else
      match splitSep sep cs with
      | [] => [[c]]
      | h :: t => (c :: h) :: t

/-! ## Canonical dates and times and the display formats

`confirm_chat_interaction_log` parses the draft's display strings with
`datetime.strptime(s.strip(), "%d-%m-%Y")` / `strptime(s.strip(), "%H:%M")`,
and `get_all_logs` renders stored values with `strftime("%d-%m-%Y")` /
`strftime("%H:%M")`.  When parsing, `%d`, `%m`, `%H`, `%M` match 1–2
digits but `%Y` matches exactly 4 digits, and `strptime` rejects values
outside the real calendar/clock ranges (month 1–12, day within the month
honouring leap years, hour 0–23, minute 0–59, year 1–9999 for
`datetime.date`).  When rendering, `%d`, `%m`, `%H`, `%M` zero-pad to two
digits but `%Y` does not pad, so years below 1000 print with fewer than
four digits. -/

/-- Canonical (storage-form) calendar date: year-month-day. -/
structure Date where
  year : Nat
  month : Nat
  day : Nat
deriving DecidableEq

/-- Canonical (storage-form) time of day: hour and minute. -/
structure Time where
  hour : Nat
  minute : Nat
deriving DecidableEq

/-- The Gregorian leap-year rule used by `datetime`. -/
def isLeapYear (y : Nat) : Bool :=
  (y % 4 == 0 && y % 100 != 0) || y % 400 == 0

/-- Days in a month of a given year, as `datetime` validates them. -/
def daysInMonth (y m : Nat) : Nat :=
  if m = 2 then (if isLeapYear y then 29 else 28)
  else if m = 4 ∨ m = 6 ∨ m = 9 ∨ m = 11 then 30
  else 31

/-- A date `datetime.date` accepts. -/
def validDate (d : Date) : Bool :=
  decide (1 ≤ d.year ∧ d.year ≤ 9999 ∧ 1 ≤ d.month ∧ d.month ≤ 12 ∧
    1 ≤ d.day ∧ d.day ≤ daysInMonth d.year d.month)

/-- A time `datetime.time` accepts. -/
def validTime (t : Time) : Bool :=
  decide (t.hour ≤ 23 ∧ t.minute ≤ 59)

/-- `strftime("%d-%m-%Y")`: the display rendering used for drafts and for
`/api/logs` responses — day and month zero-padded to two digits, the year
unpadded. -/
def formatDateDDMMYYYY (d : Date) : String :=
  String.mk (padChars 2 d.day ++ '-' :: (padChars 2 d.month ++ '-' :: natDigits d.year))

/-- `strftime("%H:%M")`: the HH:MM display rendering. -/
def formatTimeHHMM (t : Time) : String :=
  String.mk (padChars 2 t.hour ++ ':' :: padChars 2 t.minute)

/-- `datetime.strptime(s.strip(), "%d-%m-%Y").date()`: the confirmation
path's date parser.  `%d` and `%m` match one or two digits; `%Y` matches
exactly four. -/
def parseDateDDMMYYYY (s : String) : Option Date :=
  match splitSep '-' (pyStripChars s.data) with
  | [ds, ms, ys] =>
    if 1 ≤ ds.length ∧ ds.length ≤ 2 ∧ 1 ≤ ms.length ∧ ms.length ≤ 2 ∧
        ys.length = 4 then
      match readDigits ds, readDigits ms, readDigits ys with
      | some d, some m, some y =>
        if validDate ⟨y, m, d⟩ then some ⟨y, m, d⟩ else none
      | _, _, _ => none
    else none
  | _ => none

/-- `datetime.strptime(s.strip(), "%H:%M").time()`: the confirmation
path's time parser. -/
def parseTimeHHMM (s : String) : Option Time :=
  match splitSep ':' (pyStripChars s.data) with
  | [hs, ms] =>
    if 1 ≤ hs.length ∧ hs.length ≤ 2 ∧ 1 ≤ ms.length ∧ ms.length ≤ 2 then
      match readDigits hs, readDigits ms with
      | some h, some m =>
        if validTime ⟨h, m⟩ then some ⟨h, m⟩ else none
      | _, _ => none
    else none
  | _ => none

/-! ## The draft-formatting tool `log_interaction_tool` -/

/-- The arguments of `log_interaction_tool`, with the Python defaults. -/
structure DraftArgs where
  hcpName : String
  interactionDate : String
  topicsDiscussed : String
  interactionTime : Option String := none
  interactionType : String := "Meeting"
  attendees : Option (List String) := none
  materialsShared : Option (List String) := none
  samplesDistributed : Option (List String) := none
  hcpSentiment : Option String := none
  outcomes : Option String := none
  followUpActions : Option String := none
deriving DecidableEq

/-- Python truthiness substitution `x if x else 'N/A'` for a string. -/
def naText (s : String) : String :=
  if s = "" then "N/A" else s

/-- `x if x else 'N/A'` for an optional string (`None` is falsy). -/
def naOptText : Option String → String
  | none => "N/A"
  | some s => naText s

/-- `', '.join(l) if l else 'N/A'` after the tool's `None → []`
normalisation of its list arguments. -/
def naListText (o : Option (List String)) : String :=
  match o.getD [] with
  | [] => "N/A"
  | l => joinComma l

/-- The tool's sentiment rendering:
`hcpSentiment.strip() if hcpSentiment and hcpSentiment.strip() and
hcpSentiment.strip() != 'N/A' else 'N/A'`. -/
def sentimentDisplay : Option String → String
  | none => "N/A"
  | some s =>
    let t := pyStrip s
    if ¬s = "" ∧ ¬t = "" ∧ ¬t = "N/A" then t else "N/A"

/-- `log_interaction_tool`: renders the structured fields into the
draft text, exactly as the chained f-string in the source builds it. -/
def logInteractionTool (a : DraftArgs) : String :=
  "**HCP:** " ++ naText a.hcpName ++ "\n" ++
  "**Date:** " ++ naText a.interactionDate ++ "\n" ++
  "**Time:** " ++ naOptText a.interactionTime ++ "\n" ++
  "**Type:** " ++ naText a.interactionType ++ "\n" ++
  "**Attendees:** " ++ naListText a.attendees ++ "\n" ++
  "**Topics:** " ++ naText a.topicsDiscussed ++ "\n" ++
  "**Materials Shared:** " ++ naListText a.materialsShared ++ "\n" ++
  "**Samples Distributed:** " ++ naListText a.samplesDistributed ++ "\n" ++
  "**Sentiment:** " ++ sentimentDisplay a.hcpSentiment ++ "\n" ++
  "**Outcomes:** " ++ naOptText a.outcomes ++ "\n" ++
  "**Follow-up:** " ++ naOptText a.followUpActions

/-- Join lines with a newline: the layout of the §6 template, one labelled
field per line. -/
def joinLines : List String → String := joinSep "\n"

/-- The §6 draft template, written from the spec's words: the eleven
labelled lines in fixed order, `N/A` substituted for every empty or
missing value, list fields comma-joined.  Used to compare the tool's
actual output against the specified template. -/
def draftTemplate (a : DraftArgs) : String :=
  joinLines
    [ "**HCP:** " ++ naText a.hcpName
    , "**Date:** " ++ naText a.interactionDate
    , "**Time:** " ++ naOptText a.interactionTime
    , "**Type:** " ++ naText a.interactionType
    , "**Attendees:** " ++ naListText a.attendees
    , "**Topics:** " ++ naText a.topicsDiscussed
    , "**Materials Shared:** " ++ naListText a.materialsShared
    , "**Samples Distributed:** " ++ naListText a.samplesDistributed
    , "**Sentiment:** " ++ naOptText a.hcpSentiment
    , "**Outcomes:** " ++ naOptText a.outcomes
    , "**Follow-up:** " ++ naOptText a.followUpActions ]

/-- The sentiment argument carries no surrounding whitespace (true of every
value the spec's template admits: `Positive`, `Neutral`, `Negative`,
`N/A`, empty or missing). -/
def SentimentUnpadded (a : DraftArgs) : Prop :=
  match a.hcpSentiment with
  | none => True
  | some s => pyStrip s = s

/-! ## Tool registry and messages -/

/-- Typed tool arguments: one constructor per registered tool's declared
argument schema. -/
inductive ToolArgs where
  | draft (a : DraftArgs)
  | question (q : String)
  | summarize (text : String)
  | edit (interactionId fieldToEdit newValue : String)
  | retrieve (hcpName : String)
deriving DecidableEq

/-- One `{id, name, args}` tool-call triple on an assistant message. -/
structure ToolCall where
  id : String
  name : String
  args : ToolArgs
deriving DecidableEq

/-- A LangChain message, tagged by role as the code uses them. -/
inductive Msg where
  | system (content : String)
  | human (content : String)
  | ai (content : String) (toolCalls : List ToolCall)
  | tool (content : String) (toolCallId : String)
deriving DecidableEq

/-- The names in the module-level tool list. -/
def toolNames : List String :=
  [ "log_interaction_tool", "ask_clarifying_question_tool",
    "summarize_interaction_tool", "edit_interaction_tool",
    "retrieve_hcp_info_tool" ]

/-- The content the `except` branch of `call_tool_node` produces when a
tool invocation raises (here: when the supplied arguments do not match the
tool's declared schema). -/
def toolArgError (name : String) : String :=
  "Error executing tool " ++ name ++ ": invalid arguments"

/-- Direct invocation of `log_interaction_tool` (the
`await log_interaction_tool.ainvoke(tool_args)` calls). -/
def invokeDraftTool : ToolArgs → String
  | ToolArgs.draft a => logInteractionTool a
  | _ => toolArgError "log_interaction_tool"

/-- The tool dispatch of `call_tool_node`: the chain of
`if tool_name == ...` branches, with `f"Unknown tool: {tool_name}"` as the
final `else`.  The placeholder tools return their mock strings. -/
def execTool (name : String) (args : ToolArgs) : String :=
  if name = "log_interaction_tool" then invokeDraftTool args
  else if name = "ask_clarifying_question_tool" then
    match args with
    | ToolArgs.question q => q
    | _ => toolArgError name
  else if name = "summarize_interaction_tool" then
    match args with
    | ToolArgs.summarize t =>
      "Summary of provided text: \x27" ++ String.mk (t.data.take 100) ++ "...\x27 (mock summary)"
    | _ => toolArgError name
  else if name = "edit_interaction_tool" then
    match args with
    | ToolArgs.edit i f v =>
      "Mock: Interaction " ++ i ++ " field \x27" ++ f ++ "\x27 updated to \x27" ++ v ++ "\x27."
    | _ => toolArgError name
  else if name = "retrieve_hcp_info_tool" then
    match args with
    | ToolArgs.retrieve n =>
      "Mock: Retrieved info for " ++ n ++ ": Speciality: Cardiology, Location: City Hospital."
    | _ => toolArgError name
  else "Unknown tool: " ++ name

/-- Python's `repr` of the raw `tool_call["args"]` dict, as interpolated by
the endpoint's placeholder f-string. -/
def argsRepr : ToolArgs → String
  | ToolArgs.draft a =>
    "\x7b\x27hcpName\x27: \x27" ++ a.hcpName ++ "\x27, \x27interactionDate\x27: \x27" ++
      a.interactionDate ++ "\x27, \x27topicsDiscussed\x27: \x27" ++ a.topicsDiscussed ++ "\x27\x7d"
  | ToolArgs.question q => "\x7b\x27question\x27: \x27" ++ q ++ "\x27\x7d"
  | ToolArgs.summarize t => "\x7b\x27text\x27: \x27" ++ t ++ "\x27\x7d"
  | ToolArgs.edit i f v =>
    "\x7b\x27interaction_id\x27: \x27" ++ i ++ "\x27, \x27field_to_edit\x27: \x27" ++ f ++
      "\x27, \x27new_value\x27: \x27" ++ v ++ "\x27\x7d"
  | ToolArgs.retrieve n => "\x7b\x27hcp_name\x27: \x27" ++ n ++ "\x27\x7d"

/-! ## The LangGraph turn engine

`AgentState.messages` is declared as a plain `List[BaseMessage]` Pydantic
field with no reducer annotation, so each field is a last-value channel:
the dict a node returns *replaces* the channel's current value.
`call_llm_node` returns `{"messages": [response]}` — the single new
assistant message.  `call_tool_node` extends `state.messages` in place and
returns the whole extended list, so its step is an append. -/

/-- What the LLM capability returns for one decision: an assistant message,
possibly carrying tool calls. -/
structure AiReply where
  content : String
  toolCalls : List ToolCall
deriving DecidableEq

/-- One `call_llm_node` step: invoke the LLM capability on the current
messages and return `{"messages": [response]}`; with the reducer-free
channel this *replaces* the message list with the singleton. -/
def callLlmNode (cap : List Msg → AiReply) (msgs : List Msg) : List Msg :=
  let r := cap msgs
  [Msg.ai r.content r.toolCalls]

/-- One `call_tool_node` step: if the last message is an assistant message
with tool calls, execute each call in request order and append one tool
message per call; otherwise leave the state unchanged. -/
def callToolNode (msgs : List Msg) : List Msg :=
  match msgs.getLast? with
  | some (Msg.ai _ tcs) =>
    if tcs.isEmpty then msgs
    else msgs ++ tcs.map (fun tc => Msg.tool (execTool tc.name tc.args) tc.id)
  | _ => msgs

/-- The `should_continue` conditional edge after the LLM node. -/
def shouldContinue (msgs : List Msg) : String :=
  match msgs.getLast? with
  | some (Msg.ai _ tcs) => if tcs.isEmpty then "end" else "continue"
  | _ => "end"

/-- The `should_continue_after_tool` conditional edge after the tool node:
loop back to the LLM when the last message is a tool message whose content
case-insensitively contains "question" or "clarify"; the draft-marker
branch and the default both end the turn. -/
def shouldContinueAfterTool (msgs : List Msg) : String :=
  match msgs.getLast? with
  | some (Msg.tool c _) =>
    if containsCI c "question" || containsCI c "clarify" then "loop_to_llm"
    else if containsStr c "**HCP:**" && containsStr c "**Date:**" then "end"
    else "end"
  | _ => "end"

/-- The compiled graph `app_graph`, run with explicit fuel: entry at the
LLM node, then the two conditional edges exactly as wired by
`add_conditional_edges`.  `i` counts LLM invocations within the turn;
`none` means the fuel ran out before `END` was reached. -/
def runEngine (cap : Nat → List Msg → AiReply) :
    Nat → Nat → List Msg → Option (List Msg)
  | 0, _, _ => none
  | fuel + 1, i, msgs =>
    let afterLlm := callLlmNode (cap i) msgs
    if shouldContinue afterLlm = "continue" then
      let afterTools := callToolNode afterLlm
      if shouldContinueAfterTool afterTools = "loop_to_llm" then
        runEngine cap fuel (i + 1) afterTools
      else some afterTools
    else some afterLlm

/-! ## The conversation orchestrator (`/api/log_interaction/chat`) -/

/-- A frontend chat-history entry (the `text` and `sender` fields are the
only ones the endpoint reads; `id` and `type` are ignored by it). -/
structure ChatMsg where
  text : String
  sender : String
deriving DecidableEq

/-- The fixed system prompt prepended to every turn (the adjacent f-string
literals of the source concatenated). -/
def systemPrompt : String :=
  "You are a helpful AI assistant for logging interactions with Healthcare Professionals (HCPs). " ++
  "Your primary goal is to extract key details from the user\x27s conversation (HCP name, date, time, attendees, " ++
  "topics discussed, materials/samples, sentiment, outcomes, follow-up actions). " ++
  "Once you have sufficient information for a complete log, offer to draft a summary in a structured format by calling the `log_interaction_tool`. " ++
  "If you don\x27t have enough information, ask clarifying questions using `ask_clarifying_question_tool`. " ++
  "When drafting a log, ensure all parameters for `log_interaction_tool` are provided. " ++
  "Always respond concisely and directly address the user\x27s query. " ++
  "**IMPORTANT: When extracting dates for `log_interaction_tool`, always use the DD-MM-YYYY format.** " ++
  "**IMPORTANT: When extracting times for `log_interaction_tool`, always use the HH:MM format.**"

/-- Initial Turn State built by the endpoint: the system message, one
human/assistant message per history entry for senders "user"/"ai" (other
senders contribute nothing), then the new user message. -/
def buildInitialMessages (history : List ChatMsg) (userMessage : String) : List Msg :=
  Msg.system systemPrompt ::
    (history.filterMap (fun m =>
        if m.sender = "user" then some (Msg.human m.text)
        else if m.sender = "ai" then some (Msg.ai m.text [])
        else none)
      ++ [Msg.human userMessage])

/-- The endpoint's classification of a direct assistant text reply:
type "draft" when all three markers occur, otherwise the initial "text". -/
def classifyAiText (c : String) : String :=
  if containsStr c "**HCP:**" && containsStr c "**Date:**" && containsStr c "**Topics:**" then
    "draft"
  else "text"

/-- The endpoint's classification of an executed tool result: "draft" on
the three markers; the clarifying-question branch explicitly keeps the
type at "text"; the default is also "text". -/
def classifyToolContent (c : String) : String :=
  if containsStr c "**HCP:**" && containsStr c "**Date:**" && containsStr c "**Topics:**" then
    "draft"
  else if containsCI c "question" || containsCI c "clarify" then "text"
  else "text"

/-- The `(reply, type)` pair the endpoint derives from the terminal message
of the final graph state.  For an assistant message still carrying tool
calls, only `log_interaction_tool` is invoked directly (its result becomes
a "draft" reply); every other named tool yields the placeholder text.  (If
the first tool call names `log_interaction_tool` with arguments that do
not fit its schema the `ainvoke` raises and the endpoint answers HTTP 500;
that corner is rendered here as the error string of the except branch.) -/
def logInteractionChatReply : Msg → String × String
  | Msg.ai c tcs =>
    match tcs with
    | [] => (c, classifyAiText c)
    | tc :: _ =>
      if tc.name = "log_interaction_tool" then (invokeDraftTool tc.args, "draft")
      else
        ("AI decided to call tool: " ++ tc.name ++ " with args: " ++ argsRepr tc.args ++
          ". Awaiting tool execution output.", "text")
  | Msg.tool c _ => (c, classifyToolContent c)
  | Msg.human c => (c, "text")
  | Msg.system _ => ("Sorry, I couldn\x27t process that request.", "text")

/-- The `/api/log_interaction/chat` endpoint: reject an empty/whitespace
message with HTTP 400 before the graph is invoked; otherwise build the
initial Turn State, run the supplied engine on it, and classify the final
state's last message.  (`engineRun` stands for `app_graph.ainvoke`; an
engine returning no messages would make `final_state["messages"][-1]`
raise, which the outer handler converts to HTTP 500.) -/
def runChatEndpoint (engineRun : List Msg → List Msg) (history : List ChatMsg)
    (message : String) : Except String (String × String) :=
  if pyStrip message = "" then Except.error "Message cannot be empty."
  else
    match (engineRun (buildInitialMessages history message)).getLast? with
    | some m => Except.ok (logInteractionChatReply m)
    | none => Except.error "Error processing chat: list index out of range"

/-! ## The chat-confirmation path (`/api/log_interaction/chat_confirm`) -/

/-- The fields `confirm_chat_interaction_log` reads from the submitted
draft dict, with the Python `.get` defaults. -/
structure DraftData where
  hcpName : Option String := none
  interactionDate : Option String := none
  interactionTime : Option String := none
  interactionType : String := "Meeting"
  attendees : List String := []
  topicsDiscussed : Option String := none
  materialsShared : List String := []
  samplesDistributed : List String := []
  hcpSentiment : String := ""
  outcomes : Option String := none
  followUpActions : Option String := none
deriving DecidableEq

/-- The record the endpoint hands to the database after validation. -/
structure ConfirmRecord where
  hcpName : String
  interactionDate : Date
  interactionTime : Option Time
  interactionType : String
  attendees : List String
  topicsDiscussed : String
  materialsShared : List String
  samplesDistributed : List String
  hcpSentiment : Option String
  outcomes : String
  followUpActions : String
deriving DecidableEq

/-- The HTTP 400 detail for a rejected sentiment (interpolating the
already-stripped value, as the source does). -/
def sentimentError (s : String) : String :=
  "Invalid HCP Sentiment: \x27" ++ s ++ "\x27. Must be Positive, Neutral, Negative, or empty/N/A."

/-- Sentiment normalisation and check, lines 519–524: strip, map
`'N/A'`/empty to `None`, reject anything not `Positive`/`Neutral`/
`Negative`/`None`. -/
def normalizeSentiment (raw : String) : Except String (Option String) :=
  let s := pyStrip raw
  let s' : Option String := if s = "N/A" ∨ s = "" then none else some s
  if s' = none ∨ s' = some "Positive" ∨ s' = some "Neutral" ∨ s' = some "Negative" then
    Except.ok s'
  else Except.error (sentimentError s)

/-- Date pre-parsing: absent or falsy (empty) strings stay `None`;
otherwise `strptime(date_str.strip(), "%d-%m-%Y")`, with its `ValueError`
mapped to HTTP 400. -/
def parseConfirmDate : Option String → Except String (Option Date)
  | none => Except.ok none
  | some s =>
    if s = "" then Except.ok none
    else
      match parseDateDDMMYYYY s with
      | some d => Except.ok (some d)
      | none =>
        Except.error ("Invalid date format for \x27interactionDate\x27: \x27" ++ s ++
          "\x27. Expected DD-MM-YYYY.")

/-- Time pre-parsing, analogous to the date. -/
def parseConfirmTime : Option String → Except String (Option Time)
  | none => Except.ok none
  | some s =>
    if s = "" then Except.ok none
    else
      match parseTimeHHMM s with
      | some t => Except.ok (some t)
      | none =>
        Except.error ("Invalid time format for \x27interactionTime\x27: \x27" ++ s ++
          "\x27. Expected HH:MM.")

/-- The `interactionType` literals `HCPInteractionForm` accepts. -/
def interactionTypes : List String :=
  ["Meeting", "Call", "Email", "Conference", "Other", ""]

/-- The `HCPInteractionForm` Pydantic validation applied to the parsed
data (field constraints of the model; the detail strings abbreviate
Pydantic's error rendering). -/
def validateForm (name : String) (dateObj : Option Date) (timeObj : Option Time)
    (ty : String) (attendees : List String) (topics : String)
    (materials samples : List String) (sentiment : Option String)
    (outcomes follow : String) : Except String ConfirmRecord :=
  match dateObj with
  | none => Except.error "Invalid data for chat confirmation: interactionDate is required"
  | some d =>
    if name.length < 1 ∨ name.length > 100 then
      Except.error "Invalid data for chat confirmation: hcpName length"
    else if topics.length < 1 then
      Except.error "Invalid data for chat confirmation: topicsDiscussed length"
    else if ¬ ty ∈ interactionTypes then
      Except.error "Invalid data for chat confirmation: interactionType literal"
    else if outcomes.length > 500 ∨ follow.length > 500 then
      Except.error "Invalid data for chat confirmation: text length"
    else
      Except.ok ⟨name, d, timeObj, ty, attendees, topics, materials, samples,
        sentiment, outcomes, follow⟩

/-- `confirm_chat_interaction_log` up to the database write: sentiment
normalisation and check first, then date and time pre-parsing, then the
Pydantic validation of the assembled `parsed_data_for_pydantic` dict
(`draft_data.get(...) or ""` renders the `or`-defaults). -/
def confirmChat (dd : DraftData) : Except String ConfirmRecord := do
  let sentiment ← normalizeSentiment dd.hcpSentiment
  let dateObj ← parseConfirmDate dd.interactionDate
  let timeObj ← parseConfirmTime dd.interactionTime
  validateForm (dd.hcpName.getD "") dateObj timeObj dd.interactionType dd.attendees
    (dd.topicsDiscussed.getD "") dd.materialsShared dd.samplesDistributed sentiment
    (dd.outcomes.getD "") (dd.followUpActions.getD "")

/-! ## Helper lemmas -/

theorem getLast?_concat' {α : Type} (l : List α) (a : α) :
    (l ++ [a]).getLast? = some a := by
  induction l with
  | nil => rfl
  | cons x xs ih =>
    cases xs with
    | nil => rfl
    | cons y ys => simpa [List.getLast?] using ih

theorem shouldContinueAfterTool_concat (pre : List Msg) (c id : String) :
    shouldContinueAfterTool (pre ++ [Msg.tool c id]) =
      if containsCI c "question" || containsCI c "clarify" then "loop_to_llm" else "end" := by
  unfold shouldContinueAfterTool
  rw [getLast?_concat']
  by_cases hq : (containsCI c "question" || containsCI c "clarify") = true <;>
    simp [hq]

/-! ## Claim C2 -/

/-- Claim C2 (confirmed): after a batch of tool calls has been executed,
the loop-back decision inspects only the last appended tool message; a
content that case-insensitively contains "question" or "clarify" sends the
state machine back to DECIDING (`"loop_to_llm"`, wired to the LLM node),
and every other content — drafts and error texts included — ends the turn
(`"end"`, wired to `END`). -/
theorem c2_loop_back_decision (pre : List Msg) (c id : String) :
    shouldContinueAfterTool (pre ++ [Msg.tool c id]) =
      (if containsCI c "question" = true ∨ containsCI c "clarify" = true then "loop_to_llm"
       else "end") := by
  rw [shouldContinueAfterTool_concat]
  by_cases hq : containsCI c "question" = true
  · simp [hq]
  · by_cases hc : containsCI c "clarify" = true <;> simp [hq, hc]

/-! ## Claim C1 -/

/-- Claim C1 (code bug): the Turn State is *not* append-only at the LLM
decision node.  `call_llm_node` returns `{"messages": [response]}` into a
reducer-free last-value channel, so one step replaces the whole history
with the single new assistant message: starting from the initial two
messages (system prompt and user message), the step leaves one message,
and the pre-step list is not a prefix of the post-step list. -/
theorem c1_llm_step_drops_history :
    (buildInitialMessages [] "Hi").length = 2 ∧
    (callLlmNode (fun _ => AiReply.mk "Hello!" []) (buildInitialMessages [] "Hi")).length = 1 ∧
    ¬ (buildInitialMessages [] "Hi") <+:
        callLlmNode (fun _ => AiReply.mk "Hello!" []) (buildInitialMessages [] "Hi") := by
  refine ⟨rfl, rfl, fun h => ?_⟩
  have hle := h.length_le
  simp [buildInitialMessages, callLlmNode] at hle

/-! ## Claim C3 -/

/-- Claim C3 counterexample: a terminal tool message whose content has no
draft markers but contains "clarify" is reported with kind `"text"`, not
`"question"` — the endpoint's clarifying-question branch deliberately
keeps `response_type = "text"`, and no `question` kind exists in the
code's reply type at all. -/
theorem c3_no_question_kind :
    logInteractionChatReply (Msg.tool "Could you clarify the meeting date?" "call_1") =
      ("Could you clarify the meeting date?", "text") ∧
    ("text" : String) ≠ "question" := by
  exact ⟨rfl, by decide⟩

/-- Claim C3 amended: for every terminal message whose content lacks the
three draft markers but case-insensitively contains "question" or
"clarify", the externally reported kind is `"text"` (the code has no
distinct `question` kind), for both a tool-result terminal message and a
direct assistant text terminal message. -/
theorem c3_question_content_is_text (c id : String)
    (hd : (containsStr c "**HCP:**" && containsStr c "**Date:**" &&
      containsStr c "**Topics:**") = false)
    (hq : containsCI c "question" = true ∨ containsCI c "clarify" = true) :
    (logInteractionChatReply (Msg.tool c id)).2 = "text" ∧
    (logInteractionChatReply (Msg.ai c [])).2 = "text" := by
  constructor
  · show classifyToolContent c = "text"
    unfold classifyToolContent
    rcases hq with hq | hq <;> simp [hd, hq]
  · show classifyAiText c = "text"
    unfold classifyAiText
    simp [hd]

/-- Witness for the amended C3 at a concrete clarifying-question result. -/
theorem c3_question_content_is_text_witness :
    (logInteractionChatReply (Msg.tool "Could you clarify the date?" "call_9")).2 = "text" ∧
    (logInteractionChatReply (Msg.ai "Could you clarify the date?" [])).2 = "text" :=
  c3_question_content_is_text "Could you clarify the date?" "call_9" (by decide)
    (Or.inr (by decide))

/-! ## Claim C6 -/

/-- Claim C6 counterexample: a terminal assistant message still carrying a
tool call that names the clarifying-question tool does *not* get that
tool's result as the reply — the endpoint only invokes
`log_interaction_tool` directly; every other name yields the placeholder
text. -/
theorem c6_fallback_not_generic :
    execTool "ask_clarifying_question_tool" (ToolArgs.question "Could you clarify?") =
      "Could you clarify?" ∧
    (logInteractionChatReply
        (Msg.ai "" [ToolCall.mk "call_3" "ask_clarifying_question_tool"
          (ToolArgs.question "Could you clarify?")])).1 ≠ "Could you clarify?" := by
  exact ⟨rfl, by decide⟩

/-- Claim C6 amended: when the terminal message is an assistant message
still carrying tool calls, the orchestrator invokes the named tool
directly only when that tool is `log_interaction_tool` (and reports the
result as a draft); for every other named tool the reply is the fixed
placeholder text and the tool is not invoked. -/
theorem c6_fallback_draft_tool_only (c : String) (tc : ToolCall) (rest : List ToolCall) :
    (tc.name = "log_interaction_tool" →
      logInteractionChatReply (Msg.ai c (tc :: rest)) = (invokeDraftTool tc.args, "draft")) ∧
    (tc.name ≠ "log_interaction_tool" →
      logInteractionChatReply (Msg.ai c (tc :: rest)) =
        ("AI decided to call tool: " ++ tc.name ++ " with args: " ++ argsRepr tc.args ++
          ". Awaiting tool execution output.", "text")) := by
  constructor <;> intro h <;> simp [logInteractionChatReply, h]

/-- Witness for the amended C6 at a concrete non-draft tool call. -/
theorem c6_fallback_draft_tool_only_witness :
    logInteractionChatReply
        (Msg.ai "" [ToolCall.mk "call_2" "summarize_interaction_tool"
          (ToolArgs.summarize "note")]) =
      ("AI decided to call tool: summarize_interaction_tool with args: " ++
        "\x7b\x27text\x27: \x27note\x27\x7d. Awaiting tool execution output.", "text") :=
  (c6_fallback_draft_tool_only "" (ToolCall.mk "call_2" "summarize_interaction_tool"
    (ToolArgs.summarize "note")) []).2 (by decide)

/-! ## Claim C7 -/

/-- Claim C7 counterexample: an unknown tool name that itself contains the
word "question" produces the tool message `"Unknown tool: …"` whose
content *does* match the loop-back markers, so the turn does not end —
`should_continue_after_tool` returns `"loop_to_llm"` and the LLM is
invoked again, contrary to the claim that the turn always ends. -/
theorem c7_unknown_tool_can_loop :
    callToolNode [Msg.ai "" [ToolCall.mk "call_1" "my_question_tool" (ToolArgs.question "x")]] =
      [Msg.ai "" [ToolCall.mk "call_1" "my_question_tool" (ToolArgs.question "x")],
        Msg.tool "Unknown tool: my_question_tool" "call_1"] ∧
    shouldContinueAfterTool
        (callToolNode [Msg.ai "" [ToolCall.mk "call_1" "my_question_tool"
          (ToolArgs.question "x")]]) = "loop_to_llm" ∧
    ("loop_to_llm" : String) ≠ "end" := by
  exact ⟨rfl, rfl, by decide⟩

/-- Claim C7 amended: for every assistant tool call naming a tool outside
the registry, the engine appends a tool message whose content is exactly
`"Unknown tool: <name>"` (no exception escapes: the node is total); if
that content does not case-insensitively contain "question" or "clarify",
the loop-back inspection ends the turn, and — provided the content also
lacks the draft markers — the reply is classified as kind `"text"`. -/
theorem c7_unknown_tool_message (pre : List Msg) (c id name : String) (args : ToolArgs)
    (hn : name ∉ toolNames) :
    callToolNode (pre ++ [Msg.ai c [ToolCall.mk id name args]]) =
      pre ++ [Msg.ai c [ToolCall.mk id name args],
        Msg.tool ("Unknown tool: " ++ name) id] ∧
    (containsCI ("Unknown tool: " ++ name) "question" = false →
      containsCI ("Unknown tool: " ++ name) "clarify" = false →
      shouldContinueAfterTool
          (callToolNode (pre ++ [Msg.ai c [ToolCall.mk id name args]])) = "end" ∧
      (containsStr ("Unknown tool: " ++ name) "**HCP:**" = false →
        classifyToolContent ("Unknown tool: " ++ name) = "text")) := by
  simp only [toolNames, List.mem_cons, List.not_mem_nil, or_false, not_or] at hn
  obtain ⟨h1, h2, h3, h4, h5⟩ := hn
  have hexec : execTool name args = "Unknown tool: " ++ name := by
    unfold execTool
    simp [h1, h2, h3, h4, h5]
  have hnode : callToolNode (pre ++ [Msg.ai c [ToolCall.mk id name args]]) =
      pre ++ [Msg.ai c [ToolCall.mk id name args], Msg.tool ("Unknown tool: " ++ name) id] := by
    unfold callToolNode
    rw [getLast?_concat']
    simp [hexec]
  refine ⟨hnode, fun hq hc => ⟨?_, fun hd => ?_⟩⟩
  · rw [hnode]
    have : pre ++ [Msg.ai c [ToolCall.mk id name args], Msg.tool ("Unknown tool: " ++ name) id] =
        (pre ++ [Msg.ai c [ToolCall.mk id name args]]) ++
          [Msg.tool ("Unknown tool: " ++ name) id] := by simp
    rw [this, shouldContinueAfterTool_concat]
    simp [hq, hc]
  · unfold classifyToolContent
    simp [hq, hc, hd]

/-- Witness for the amended C7 at a concrete marker-free unknown name. -/
theorem c7_unknown_tool_message_witness :
    callToolNode [Msg.ai "" [ToolCall.mk "call_4" "fancy_tool" (ToolArgs.retrieve "x")]] =
      [Msg.ai "" [ToolCall.mk "call_4" "fancy_tool" (ToolArgs.retrieve "x")],
        Msg.tool "Unknown tool: fancy_tool" "call_4"] ∧
    shouldContinueAfterTool
        (callToolNode [Msg.ai "" [ToolCall.mk "call_4" "fancy_tool"
          (ToolArgs.retrieve "x")]]) = "end" ∧
    classifyToolContent "Unknown tool: fancy_tool" = "text" := by
  have h := c7_unknown_tool_message [] "" "call_4" "fancy_tool" (ToolArgs.retrieve "x")
    (by decide)
  have h2 := h.2 (by decide) (by decide)
  exact ⟨h.1, h2.1, h2.2 (by decide)⟩

/-! ## Claim C8 -/

theorem dropWhile_eq_nil_of_all {p : Char → Bool} {l : List Char}
    (h : l.all p = true) : l.dropWhile p = [] := by
  induction l with
  | nil => rfl
  | cons c t ih =>
    simp only [List.all_cons, Bool.and_eq_true] at h
    simp [List.dropWhile, h.1, ih h.2]

theorem mem_dropWhile_of_not {p : Char → Bool} {l : List Char} {c : Char}
    (hc : c ∈ l) (hp : p c = false) : c ∈ l.dropWhile p := by
  induction l with
  | nil => cases hc
  | cons x t ih =>
    by_cases hx : p x = true
    · simp only [List.dropWhile, hx]
      rcases List.mem_cons.mp hc with rfl | hm
      · rw [hp] at hx; cases hx
      · exact ih hm
    · have hx' : p x = false := by simpa using hx
      simp only [List.dropWhile, hx']
      exact hc

theorem pyStripChars_nil_iff (l : List Char) :
    pyStripChars l = [] ↔ l.all pyIsSpace = true := by
  constructor
  · intro h
    by_contra hall
    obtain ⟨c, hc, hp⟩ : ∃ c ∈ l, ¬ pyIsSpace c = true := by
      simpa [List.all_eq_true] using hall
    have h1 : c ∈ l.dropWhile pyIsSpace := mem_dropWhile_of_not hc (by simpa using hp)
    have h2 : c ∈ (l.dropWhile pyIsSpace).reverse := List.mem_reverse.mpr h1
    have h3 : c ∈ (l.dropWhile pyIsSpace).reverse.dropWhile pyIsSpace :=
      mem_dropWhile_of_not h2 (by simpa using hp)
    have h4 : c ∈ pyStripChars l := List.mem_reverse.mpr h3
    rw [h] at h4
    cases h4
  · intro h
    unfold pyStripChars
    rw [dropWhile_eq_nil_of_all h]
    rfl

theorem pyStrip_eq_empty_iff (s : String) :
    pyStrip s = "" ↔ s.data.all pyIsSpace = true := by
  unfold pyStrip
  rw [← pyStripChars_nil_iff]
  constructor
  · intro h
    simpa using congrArg String.data h
  · intro h
    rw [h]

/-- Claim C8 (confirmed): a turn whose message is empty or whitespace-only
is rejected with the validation failure `"Message cannot be empty."`
before the engine is invoked — the response is the same for any two
engines — and for every message that is not whitespace-only this
particular rejection never occurs. -/
theorem c8_empty_message_rejected (e₁ e₂ : List Msg → List Msg) (h : List ChatMsg)
    (msg : String) :
    (msg.data.all pyIsSpace = true →
      runChatEndpoint e₁ h msg = Except.error "Message cannot be empty." ∧
      runChatEndpoint e₁ h msg = runChatEndpoint e₂ h msg) ∧
    (msg.data.all pyIsSpace = false →
      runChatEndpoint e₁ h msg ≠ Except.error "Message cannot be empty.") := by
  constructor
  · intro hall
    have hg : pyStrip msg = "" := (pyStrip_eq_empty_iff msg).mpr hall
    unfold runChatEndpoint
    rw [if_pos hg]
    exact ⟨rfl, (if_pos hg).symm⟩
  · intro hall
    have hg : ¬ pyStrip msg = "" := by
      intro hc
      rw [(pyStrip_eq_empty_iff msg).mp hc] at hall
      cases hall
    unfold runChatEndpoint
    rw [if_neg hg]
    cases hlast : (e₁ (buildInitialMessages h msg)).getLast? with
    | some m => simp
    | none => simp

/-- Witness for C8: the whitespace-only message `"   "` is rejected and
`"Hi"` is not. -/
theorem c8_empty_message_rejected_witness :
    runChatEndpoint (fun m => m) [] "   " = Except.error "Message cannot be empty." ∧
    runChatEndpoint (fun m => m) [] "Hi" ≠ Except.error "Message cannot be empty." :=
  ⟨((c8_empty_message_rejected (fun m => m) (fun m => m) [] "   ").1 (by decide)).1,
    (c8_empty_message_rejected (fun m => m) (fun m => m) [] "Hi").2 (by decide)⟩

/-! ## Claim C9 -/

theorem runEngine_isSome (cap : Nat → List Msg → AiReply) (N : Nat)
    (hN : ∀ msgs, (cap N msgs).toolCalls = []) :
    ∀ (fuel i : Nat) (msgs : List Msg), i ≤ N → N < i + fuel →
      (runEngine cap fuel i msgs).isSome = true := by
  intro fuel
  induction fuel with
  | zero => intro i msgs hle hlt; omega
  | succ f ih =>
    intro i msgs hle hlt
    unfold runEngine
    by_cases hc : shouldContinue (callLlmNode (cap i) msgs) = "continue"
    · rw [if_pos hc]
      by_cases hl : shouldContinueAfterTool (callToolNode (callLlmNode (cap i) msgs)) =
          "loop_to_llm"
      · rw [if_pos hl]
        have hiN : i ≠ N := by
          intro hEq
          subst hEq
          have : shouldContinue (callLlmNode (cap i) msgs) = "end" := by
            unfold callLlmNode shouldContinue
            simp [hN msgs, List.isEmpty_iff]
          rw [this] at hc
          exact absurd hc (by decide)
        exact ih (i + 1) _ (by omega) (by omega)
      · rw [if_neg hl]
        rfl
    · rw [if_neg hc]
      rfl

/-- Claim C9 (confirmed): for any LLM capability whose `N`-th invocation
returns an assistant message with no tool calls, the turn engine reaches
`END` from any initial Turn State within `N + 1` LLM invocations — the
DECIDING ↔ EXECUTING_TOOLS loop cannot run forever. -/
theorem c9_engine_terminates (cap : Nat → List Msg → AiReply) (N : Nat)
    (hN : ∀ msgs, (cap N msgs).toolCalls = []) (msgs : List Msg) :
    (runEngine cap (N + 1) 0 msgs).isSome = true :=
  runEngine_isSome cap N hN (N + 1) 0 msgs (Nat.zero_le N) (by omega)

/-- Witness for C9: an LLM that immediately answers `"Hello!"` with no
tool calls ends the turn with fuel 1. -/
theorem c9_engine_terminates_witness :
    (runEngine (fun _ _ => AiReply.mk "Hello!" []) 1 0 [Msg.human "Hi"]).isSome = true :=
  c9_engine_terminates (fun _ _ => AiReply.mk "Hello!" []) 0 (fun _ => rfl) [Msg.human "Hi"]

/-! ## Claim C4 -/

theorem sentimentDisplay_eq_naOptText {o : Option String}
    (h : match o with | none => True | some s => pyStrip s = s) :
    sentimentDisplay o = naOptText o := by
  cases o with
  | none => rfl
  | some s =>
    have h' : pyStrip s = s := h
    simp only [sentimentDisplay, naOptText, naText, h']
    by_cases h1 : s = ""
    · simp [h1]
    · by_cases h2 : s = "N/A"
      · simp [h1, h2]
      · simp [h1, h2]

/-- Claim C4 (confirmed): for every invocation of the draft-formatting
tool whose sentiment argument carries no surrounding whitespace (all
template-admissible values do), the returned text is exactly the eleven
labelled lines of the §6 template in the fixed order, `N/A` substituted
for every empty or missing value, list fields comma-joined. -/
theorem c4_draft_matches_template (a : DraftArgs) (hs : SentimentUnpadded a) :
    logInteractionTool a = draftTemplate a := by
  have hsent : sentimentDisplay a.hcpSentiment = naOptText a.hcpSentiment :=
    sentimentDisplay_eq_naOptText hs
  unfold logInteractionTool draftTemplate joinLines
  rw [hsent]
  simp only [joinSep, String.append_assoc]

/-- Witness for C4: the Scenario-3 draft (`Dr. Lee`, `01-06-2024`,
`Drug X efficacy`, everything else unspecified) matches the template. -/
theorem c4_draft_matches_template_witness :
    logInteractionTool
        { hcpName := "Dr. Lee", interactionDate := "01-06-2024",
          topicsDiscussed := "Drug X efficacy" } =
      draftTemplate
        { hcpName := "Dr. Lee", interactionDate := "01-06-2024",
          topicsDiscussed := "Drug X efficacy" } :=
  c4_draft_matches_template
    { hcpName := "Dr. Lee", interactionDate := "01-06-2024",
      topicsDiscussed := "Drug X efficacy" } trivial

/-! ## Claim C5 -/

theorem digitChar_facts : ∀ d, d < 10 →
    charToDigit (digitChar d) = some d ∧ pyIsSpace (digitChar d) = false ∧
    ¬ digitChar d = '-' ∧ ¬ digitChar d = ':' := by decide

theorem padChars_length (w n : Nat) : (padChars w n).length = w := by
  induction w generalizing n with
  | zero => rfl
  | succ w ih => simp [padChars, ih]

theorem padChars_mem {w n : Nat} {c : Char} (h : c ∈ padChars w n) :
    ∃ d, d < 10 ∧ c = digitChar d := by
  induction w generalizing n with
  | zero => cases h
  | succ w ih =>
    simp only [padChars, List.mem_append, List.mem_singleton] at h
    rcases h with h | h
    · exact ih h
    · exact ⟨n % 10, Nat.mod_lt _ (by decide), h⟩

theorem padChars_char_facts {w n : Nat} {c : Char} (h : c ∈ padChars w n) :
    pyIsSpace c = false ∧ ¬ c = '-' ∧ ¬ c = ':' := by
  obtain ⟨d, hd, rfl⟩ := padChars_mem h
  exact (digitChar_facts d hd).2

theorem readDigitsAux_append (xs ys : List Char) (acc : Nat) :
    readDigitsAux (xs ++ ys) acc =
      match readDigitsAux xs acc with
      | some a => readDigitsAux ys a
      | none => none := by
  induction xs generalizing acc with
  | nil => rfl
  | cons c t ih =>
    simp only [List.cons_append, readDigitsAux]
    cases charToDigit c with
    | some d => exact ih _
    | none => rfl

theorem readDigitsAux_pad (w n acc : Nat) (h : n < 10 ^ w) :
    readDigitsAux (padChars w n) acc = some (acc * 10 ^ w + n) := by
  induction w generalizing n acc with
  | zero =>
    have hn : n = 0 := by omega
    subst hn
    simp [padChars, readDigitsAux]
  | succ w ih =>
    have hdiv : n / 10 < 10 ^ w := by
      rw [Nat.div_lt_iff_lt_mul (by decide : 0 < 10)]
      calc n < 10 ^ (w + 1) := h
        _ = 10 ^ w * 10 := by rw [pow_succ]
    have hm : n % 10 < 10 := Nat.mod_lt _ (by decide)
    rw [padChars, readDigitsAux_append, ih _ _ hdiv]
    simp only [readDigitsAux, (digitChar_facts (n % 10) hm).1]
    congr 1
    have h1 : (acc * 10 ^ w + n / 10) * 10 + n % 10 =
        acc * (10 ^ w * 10) + (10 * (n / 10) + n % 10) := by ring
    rw [h1, Nat.div_add_mod, pow_succ]

theorem splitSep_no_sep {sep : Char} {a : List Char} (h : ∀ c ∈ a, ¬ c = sep) :
    splitSep sep a = [a] := by
  induction a with
  | nil => rfl
  | cons c t ih =>
    have hc : ¬ c = sep := h c (List.mem_cons_self c t)
    have ht := ih (fun x hx => h x (List.mem_cons_of_mem c hx))
    simp [splitSep, hc, ht]

theorem splitSep_append_sep {sep : Char} {a rest : List Char} (h : ∀ c ∈ a, ¬ c = sep) :
    splitSep sep (a ++ sep :: rest) = a :: splitSep sep rest := by
  induction a with
  | nil => simp [splitSep]
  | cons c t ih =>
    have hc : ¬ c = sep := h c (List.mem_cons_self c t)
    have ht := ih (fun x hx => h x (List.mem_cons_of_mem c hx))
    simp [splitSep, hc, ht]

theorem dropWhile_eq_self_of_all_not {p : Char → Bool} {l : List Char}
    (h : ∀ c ∈ l, p c = false) : l.dropWhile p = l := by
  cases l with
  | nil => rfl
  | cons c t => simp [List.dropWhile, h c (List.mem_cons_self c t)]

theorem pyStripChars_eq_self {l : List Char} (h : ∀ c ∈ l, pyIsSpace c = false) :
    pyStripChars l = l := by
  unfold pyStripChars
  rw [dropWhile_eq_self_of_all_not h,
    dropWhile_eq_self_of_all_not (fun c hc => h c (List.mem_reverse.mp hc))]
  exact List.reverse_reverse l

theorem daysInMonth_le_31 (y m : Nat) : daysInMonth y m ≤ 31 := by
  unfold daysInMonth
  split
  · split <;> decide
  · split <;> decide

theorem natDigits_year {y : Nat} (h1 : 1000 ≤ y) (h2 : y ≤ 9999) :
    natDigits y = padChars 4 y := by
  have ha : ¬ y < 10 := by omega
  have hb : ¬ y / 10 < 10 := by omega
  have hc : ¬ y / 10 / 10 < 10 := by omega
  have hd : y / 10 / 10 / 10 < 10 := by omega
  have he : y / 10 / 10 / 10 % 10 = y / 10 / 10 / 10 := Nat.mod_eq_of_lt hd
  simp only [natDigits, natDigitsAux, padChars, if_neg ha, if_neg hb, if_neg hc,
    if_pos hd, he, List.nil_append]

theorem parse_format_date (d : Date) (h : validDate d = true)
    (hy4 : 1000 ≤ d.year) :
    parseDateDDMMYYYY (formatDateDDMMYYYY d) = some d := by
  obtain ⟨y, m, dy⟩ := d
  have hb : 1 ≤ y ∧ y ≤ 9999 ∧ 1 ≤ m ∧ m ≤ 12 ∧ 1 ≤ dy ∧
      dy ≤ daysInMonth y m := by simpa [validDate] using h
  have hy4' : 1000 ≤ y := hy4
  have hday : dy < 10 ^ 2 := by
    have := daysInMonth_le_31 y m
    omega
  have hmon : m < 10 ^ 2 := by omega
  have hyear : y < 10 ^ 4 := by omega
  have hyd : natDigits y = padChars 4 y := natDigits_year hy4' (by omega)
  have hnos : ∀ c ∈ padChars 2 dy ++ '-' :: (padChars 2 m ++ '-' :: padChars 4 y),
      pyIsSpace c = false := by
    intro c hc
    simp only [List.mem_append, List.mem_cons] at hc
    rcases hc with hc | rfl | hc | rfl | hc
    · exact (padChars_char_facts hc).1
    · decide
    · exact (padChars_char_facts hc).1
    · decide
    · exact (padChars_char_facts hc).1
  have hsplit : splitSep '-' (pyStripChars (formatDateDDMMYYYY ⟨y, m, dy⟩).data) =
      [padChars 2 dy, padChars 2 m, padChars 4 y] := by
    have hdata : (formatDateDDMMYYYY ⟨y, m, dy⟩).data =
        padChars 2 dy ++ '-' :: (padChars 2 m ++ '-' :: padChars 4 y) := by
      rw [show (formatDateDDMMYYYY ⟨y, m, dy⟩).data =
        padChars 2 dy ++ '-' :: (padChars 2 m ++ '-' :: natDigits y) from rfl, hyd]
    rw [hdata, pyStripChars_eq_self hnos,
      splitSep_append_sep (fun c hc => (padChars_char_facts hc).2.1),
      splitSep_append_sep (fun c hc => (padChars_char_facts hc).2.1),
      splitSep_no_sep (fun c hc => (padChars_char_facts hc).2.1)]
  unfold parseDateDDMMYYYY
  rw [hsplit]
  simp only [readDigits, padChars_length, readDigitsAux_pad 2 dy 0 hday,
    readDigitsAux_pad 2 m 0 hmon, readDigitsAux_pad 4 y 0 hyear, Nat.zero_mul,
    Nat.zero_add]
  simp [h]

theorem parse_format_time (t : Time) (h : validTime t = true) :
    parseTimeHHMM (formatTimeHHMM t) = some t := by
  obtain ⟨hh, mm⟩ := t
  have hb : hh ≤ 23 ∧ mm ≤ 59 := by simpa [validTime] using h
  have hhour : hh < 10 ^ 2 := by omega
  have hmin : mm < 10 ^ 2 := by omega
  have hnos : ∀ c ∈ padChars 2 hh ++ ':' :: padChars 2 mm, pyIsSpace c = false := by
    intro c hc
    simp only [List.mem_append, List.mem_cons] at hc
    rcases hc with hc | rfl | hc
    · exact (padChars_char_facts hc).1
    · decide
    · exact (padChars_char_facts hc).1
  have hsplit : splitSep ':' (pyStripChars (formatTimeHHMM ⟨hh, mm⟩).data) =
      [padChars 2 hh, padChars 2 mm] := by
    have hdata : (formatTimeHHMM ⟨hh, mm⟩).data =
        padChars 2 hh ++ ':' :: padChars 2 mm := rfl
    rw [hdata, pyStripChars_eq_self hnos,
      splitSep_append_sep (fun c hc => (padChars_char_facts hc).2.2),
      splitSep_no_sep (fun c hc => (padChars_char_facts hc).2.2)]
  unfold parseTimeHHMM
  rw [hsplit]
  simp only [readDigits, padChars_length, readDigitsAux_pad 2 hh 0 hhour,
    readDigitsAux_pad 2 mm 0 hmin, Nat.zero_mul, Nat.zero_add]
  simp [h]

/-- Claim C5 counterexample: the valid calendar date 1 June of year 5
breaks the round trip — `strftime("%d-%m-%Y")` does not zero-pad the
year, rendering `"01-06-5"`, and `strptime`'s `%Y` requires exactly four
digits, so the confirmation parser rejects the rendered string instead of
reconstructing the date. -/
theorem c5_short_year_breaks_roundtrip :
    validDate ⟨5, 6, 1⟩ = true ∧
    formatDateDDMMYYYY ⟨5, 6, 1⟩ = "01-06-5" ∧
    parseDateDDMMYYYY (formatDateDDMMYYYY ⟨5, 6, 1⟩) = none := by
  exact ⟨by decide, rfl, rfl⟩

/-- Claim C5 amended: for every valid calendar date whose year has four
digits (year ≥ 1000 — only then does the unpadded `%Y` rendering match
the four-digit form the parser demands) and every valid time of day,
rendering with the listing path's `strftime("%d-%m-%Y")` /
`strftime("%H:%M")` and parsing back with the confirmation path's
`strptime` calls reconstructs the same canonical values — format-then-
parse is the identity there, so on that domain the display rendering is
injective into the parseable display strings. -/
theorem c5_display_roundtrip (d : Date) (t : Time)
    (hd : validDate d = true) (hy : 1000 ≤ d.year) (ht : validTime t = true) :
    parseDateDDMMYYYY (formatDateDDMMYYYY d) = some d ∧
    parseTimeHHMM (formatTimeHHMM t) = some t :=
  ⟨parse_format_date d hd hy, parse_format_time t ht⟩

/-- Witness for the amended C5 at the Scenario-3 date `01-06-2024` and
time `14:30`. -/
theorem c5_display_roundtrip_witness :
    parseDateDDMMYYYY (formatDateDDMMYYYY ⟨2024, 6, 1⟩) = some ⟨2024, 6, 1⟩ ∧
    parseTimeHHMM (formatTimeHHMM ⟨14, 30⟩) = some ⟨14, 30⟩ :=
  c5_display_roundtrip ⟨2024, 6, 1⟩ ⟨14, 30⟩ (by decide) (by decide) (by decide)

/-! ## Claim C10 -/

theorem exceptBind_ok {α β : Type} (a : α) (f : α → Except String β) :
    (Except.ok a >>= f) = f a := rfl

theorem exceptBind_error {α β : Type} (e : String) (f : α → Except String β) :
    ((Except.error e : Except String α) >>= f) = Except.error e := rfl

theorem normalizeSentiment_eq (raw : String) :
    normalizeSentiment raw =
      if pyStrip raw = "N/A" ∨ pyStrip raw = "" then Except.ok none
      else if pyStrip raw = "Positive" ∨ pyStrip raw = "Neutral" ∨ pyStrip raw = "Negative"
        then Except.ok (some (pyStrip raw))
      else Except.error (sentimentError (pyStrip raw)) := by
  unfold normalizeSentiment
  by_cases h1 : pyStrip raw = "N/A" ∨ pyStrip raw = ""
  · simp [h1]
  · by_cases h2 : pyStrip raw = "Positive" ∨ pyStrip raw = "Neutral" ∨
        pyStrip raw = "Negative"
    · rcases h2 with h | h | h <;> simp [h1, h]
    · rw [not_or, not_or] at h2
      obtain ⟨hp, hn, hg⟩ := h2
      simp [h1, hp, hn, hg]

theorem confirmChat_sentiment_ok {dd : DraftData} {v : Option String}
    (hs : normalizeSentiment dd.hcpSentiment = Except.ok v) (r : ConfirmRecord)
    (hr : confirmChat dd = Except.ok r) : r.hcpSentiment = v := by
  unfold confirmChat at hr
  rw [hs, exceptBind_ok] at hr
  cases hd : parseConfirmDate dd.interactionDate with
  | error e => rw [hd, exceptBind_error] at hr; cases hr
  | ok dOpt =>
    rw [hd, exceptBind_ok] at hr
    cases ht : parseConfirmTime dd.interactionTime with
    | error e => rw [ht, exceptBind_error] at hr; cases hr
    | ok tOpt =>
      rw [ht, exceptBind_ok] at hr
      unfold validateForm at hr
      cases dOpt with
      | none => cases hr
      | some dObj =>
        split at hr
        · cases hr
        · split at hr
          · cases hr
          · split at hr
            · cases hr
            · split at hr
              · cases hr
              · split at hr
                · cases hr
                · injection hr with hr'
                  rw [← hr']

/-- Claim C10 counterexample: the submitted value `" Positive "` is
neither `"N/A"` nor empty/whitespace-only, and is not one of
`Positive`/`Neutral`/`Negative`, so the claim demands a validation
rejection — but the confirmation path strips it first and accepts the
draft, storing the stripped value `"Positive"`. -/
theorem c10_padded_sentiment_accepted :
    (¬ (" Positive " : String) = "N/A") ∧
    (" Positive " : String).data.all pyIsSpace = false ∧
    (" Positive " : String) ∉ (["Positive", "Neutral", "Negative"] : List String) ∧
    confirmChat { hcpName := some "Dr. Lee", interactionDate := some "01-06-2024",
                  topicsDiscussed := some "Drug X efficacy", hcpSentiment := " Positive " } =
      Except.ok ⟨"Dr. Lee", ⟨2024, 6, 1⟩, none, "Meeting", [], "Drug X efficacy", [], [],
        some "Positive", "", ""⟩ := by
  exact ⟨by decide, by decide, by decide, rfl⟩

/-- Claim C10 amended: the submitted sentiment is whitespace-stripped
first; a stripped value equal to `"N/A"` or empty becomes null, any other
stripped value outside {Positive, Neutral, Negative} is rejected with the
sentiment validation failure before any date parsing or database write
(the error is produced whatever the date/time fields hold), and a
stripped value in that set passes through to the stored record as the
stripped string. -/
theorem c10_sentiment_normalization (dd : DraftData) :
    ((pyStrip dd.hcpSentiment = "N/A" ∨ pyStrip dd.hcpSentiment = "") →
      ∀ r, confirmChat dd = Except.ok r → r.hcpSentiment = none) ∧
    ((¬ pyStrip dd.hcpSentiment = "N/A" ∧ ¬ pyStrip dd.hcpSentiment = "" ∧
        pyStrip dd.hcpSentiment ∉ (["Positive", "Neutral", "Negative"] : List String)) →
      confirmChat dd = Except.error (sentimentError (pyStrip dd.hcpSentiment))) ∧
    (pyStrip dd.hcpSentiment ∈ (["Positive", "Neutral", "Negative"] : List String) →
      ∀ r, confirmChat dd = Except.ok r →
        r.hcpSentiment = some (pyStrip dd.hcpSentiment)) := by
  refine ⟨fun h => ?_, fun h => ?_, fun h => ?_⟩
  · have hs : normalizeSentiment dd.hcpSentiment = Except.ok none := by
      rw [normalizeSentiment_eq, if_pos h]
    exact confirmChat_sentiment_ok hs
  · obtain ⟨h1, h2, h3⟩ := h
    simp only [List.mem_cons, List.not_mem_nil, or_false, not_or] at h3
    obtain ⟨hp, hn, hg⟩ := h3
    have hs : normalizeSentiment dd.hcpSentiment =
        Except.error (sentimentError (pyStrip dd.hcpSentiment)) := by
      rw [normalizeSentiment_eq, if_neg (by tauto), if_neg (by tauto)]
    unfold confirmChat
    rw [hs, exceptBind_error]
  · simp only [List.mem_cons, List.not_mem_nil, or_false] at h
    have hne : ¬ (pyStrip dd.hcpSentiment = "N/A" ∨ pyStrip dd.hcpSentiment = "") := by
      rcases h with h | h | h <;> rw [h] <;> decide
    have hs : normalizeSentiment dd.hcpSentiment =
        Except.ok (some (pyStrip dd.hcpSentiment)) := by
      rw [normalizeSentiment_eq, if_neg hne, if_pos h]
    exact confirmChat_sentiment_ok hs

/-- Witness for the amended C10: the stripped value `"Angry"` is rejected
with the sentiment failure even though the draft's date is unparseable. -/
theorem c10_sentiment_normalization_witness :
    confirmChat { hcpSentiment := "Angry", interactionDate := some "not-a-date" } =
      Except.error (sentimentError "Angry") :=
  (c10_sentiment_normalization
      { hcpSentiment := "Angry", interactionDate := some "not-a-date" }).2.1
    ⟨by decide, by decide, by decide⟩

end HCP
